import Mathlib

set_option maxRecDepth 400000

/-!
Verification of the JNI header
`src/native/windows/directshow/org_jitsi_impl_neomedia_jmfext_media_protocol_directshow_DSCaptureDevice.h`
from the libjitsi repository.

The header is embedded shallowly: every top-level element of the file
(preprocessor directive, comment, extern-C brace, method block) is an item of
`HeaderItem`, transcribed in order into `headerItems`, and the verbatim text of
the file is `headerLines`.  A rendering function maps the structured items back
to the raw lines, and `headerItems_render_to_source` proves the transcription
reproduces the file text exactly, grounding the structured model.
-/

namespace DSCaptureDeviceHeader

/-- The C-level types that appear in the header's declarations
(JNI handle types, `jint`, `void`, and the implicit `JNIEnv *`). -/
inductive CType where
  | jniEnvPtr
  | jclass
  | jobject
  | jlong
  | jint
  | jstring
  | jobjectArray
  | void
  deriving DecidableEq, Repr

/-- How each C type is spelled in the header's source text. -/
def ctypeStr : CType → String
  | .jniEnvPtr => "JNIEnv *"
  | .jclass => "jclass"
  | .jobject => "jobject"
  | .jlong => "jlong"
  | .jint => "jint"
  | .jstring => "jstring"
  | .jobjectArray => "jobjectArray"
  | .void => "void"

/-- One native-method block of the header: the three fields of the comment
block (`Class:`, `Method:`, `Signature:`) and the extern prototype below it
(return type, full parameter list in order, and the literal C symbol name). -/
structure NativeDecl where
  className : String
  methodName : String
  signature : String
  retType : CType
  allParams : List CType
  cName : String
  deriving DecidableEq, Repr

/-- The mangled class name appearing in every comment block of the header. -/
def mangledClassName : String :=
  "org_jitsi_impl_neomedia_jmfext_media_protocol_directshow_DSCaptureDevice"

/-- The include-guard macro of the header (lines 5, 6 and 93). -/
def guardName : String :=
  "_Included_org_jitsi_impl_neomedia_jmfext_media_protocol_directshow_DSCaptureDevice"

/-- The fully-qualified Java class name.  Derivable from the header itself:
the comment `Header for class org_jitsi_impl_..._DSCaptureDevice` gives the
mangled form, and since no `_1` escape occurs in it, every underscore stands
for a `.` of the Java name. -/
def javaFQClassName : String :=
  "org.jitsi.impl.neomedia.jmfext.media.protocol.directshow.DSCaptureDevice"

/-- Header lines 10-16: `getBytes`, descriptor `(JJI)I`, static (receiver `jclass`). -/
def getBytesDecl : NativeDecl :=
  { className := mangledClassName
    methodName := "getBytes"
    signature := "(JJI)I"
    retType := .jint
    allParams := [.jniEnvPtr, .jclass, .jlong, .jlong, .jint]
    cName := "Java_org_jitsi_impl_neomedia_jmfext_media_protocol_directshow_DSCaptureDevice_getBytes" }

/-- Header lines 18-24: `connect`, descriptor `(J)V`. -/
def connectDecl : NativeDecl :=
  { className := mangledClassName
    methodName := "connect"
    signature := "(J)V"
    retType := .void
    allParams := [.jniEnvPtr, .jobject, .jlong]
    cName := "Java_org_jitsi_impl_neomedia_jmfext_media_protocol_directshow_DSCaptureDevice_connect" }

/-- Header lines 26-32: `disconnect`, descriptor `(J)V`. -/
def disconnectDecl : NativeDecl :=
  { className := mangledClassName
    methodName := "disconnect"
    signature := "(J)V"
    retType := .void
    allParams := [.jniEnvPtr, .jobject, .jlong]
    cName := "Java_org_jitsi_impl_neomedia_jmfext_media_protocol_directshow_DSCaptureDevice_disconnect" }

/-- Header lines 34-40: `getFormat`, descriptor `(J)Lorg/jitsi/...DSFormat;`. -/
def getFormatDecl : NativeDecl :=
  { className := mangledClassName
    methodName := "getFormat"
    signature := "(J)Lorg/jitsi/impl/neomedia/jmfext/media/protocol/directshow/DSFormat;"
    retType := .jobject
    allParams := [.jniEnvPtr, .jobject, .jlong]
    cName := "Java_org_jitsi_impl_neomedia_jmfext_media_protocol_directshow_DSCaptureDevice_getFormat" }

/-- Header lines 42-48: `getName`, descriptor `(J)Ljava/lang/String;`. -/
def getNameDecl : NativeDecl :=
  { className := mangledClassName
    methodName := "getName"
    signature := "(J)Ljava/lang/String;"
    retType := .jstring
    allParams := [.jniEnvPtr, .jobject, .jlong]
    cName := "Java_org_jitsi_impl_neomedia_jmfext_media_protocol_directshow_DSCaptureDevice_getName" }

/-- Header lines 50-56: `getSupportedFormats`, descriptor `(J)[L...DSFormat;`. -/
def getSupportedFormatsDecl : NativeDecl :=
  { className := mangledClassName
    methodName := "getSupportedFormats"
    signature := "(J)[Lorg/jitsi/impl/neomedia/jmfext/media/protocol/directshow/DSFormat;"
    retType := .jobjectArray
    allParams := [.jniEnvPtr, .jobject, .jlong]
    cName := "Java_org_jitsi_impl_neomedia_jmfext_media_protocol_directshow_DSCaptureDevice_getSupportedFormats" }

/-- Header lines 58-64: `setDelegate`, descriptor `(JL.../GrabberDelegate;)V`. -/
def setDelegateDecl : NativeDecl :=
  { className := mangledClassName
    methodName := "setDelegate"
    signature := "(JLorg/jitsi/impl/neomedia/jmfext/media/protocol/directshow/DSCaptureDevice/GrabberDelegate;)V"
    retType := .void
    allParams := [.jniEnvPtr, .jobject, .jlong, .jobject]
    cName := "Java_org_jitsi_impl_neomedia_jmfext_media_protocol_directshow_DSCaptureDevice_setDelegate" }

/-- Header lines 66-72: `setFormat`, descriptor `(JL...DSFormat;)I`. -/
def setFormatDecl : NativeDecl :=
  { className := mangledClassName
    methodName := "setFormat"
    signature := "(JLorg/jitsi/impl/neomedia/jmfext/media/protocol/directshow/DSFormat;)I"
    retType := .jint
    allParams := [.jniEnvPtr, .jobject, .jlong, .jobject]
    cName := "Java_org_jitsi_impl_neomedia_jmfext_media_protocol_directshow_DSCaptureDevice_setFormat" }

/-- Header lines 74-80: `start`, descriptor `(J)I`. -/
def startDecl : NativeDecl :=
  { className := mangledClassName
    methodName := "start"
    signature := "(J)I"
    retType := .jint
    allParams := [.jniEnvPtr, .jobject, .jlong]
    cName := "Java_org_jitsi_impl_neomedia_jmfext_media_protocol_directshow_DSCaptureDevice_start" }

/-- Header lines 82-88: `stop`, descriptor `(J)I`. -/
def stopDecl : NativeDecl :=
  { className := mangledClassName
    methodName := "stop"
    signature := "(J)I"
    retType := .jint
    allParams := [.jniEnvPtr, .jobject, .jlong]
    cName := "Java_org_jitsi_impl_neomedia_jmfext_media_protocol_directshow_DSCaptureDevice_stop" }

/-- A top-level element of the header file.  `functionDef` (a function given a
body) is included so that "the file contains prototypes and no definitions" is
a statement about the transcription, not about the type; no such item occurs. -/
inductive HeaderItem where
  | lineComment (text : String)
  | includeJni
  | blank
  | ifndefDir (name : String)
  | defineDir (name : String)
  | ifdefCpp
  | endifDir
  | externCOpen
  | externCClose
  | method (d : NativeDecl)
  | functionDef (d : NativeDecl) (body : List String)
  deriving DecidableEq, Repr

/-- The header file, item by item, in source order. -/
def headerItems : List HeaderItem :=
  [ .lineComment "DO NOT EDIT THIS FILE - it is machine generated"
  , .includeJni
  , .lineComment ("Header for class " ++ mangledClassName)
  , .blank
  , .ifndefDir guardName
  , .defineDir guardName
  , .ifdefCpp
  , .externCOpen
  , .endifDir
  , .method getBytesDecl
  , .blank
  , .method connectDecl
  , .blank
  , .method disconnectDecl
  , .blank
  , .method getFormatDecl
  , .blank
  , .method getNameDecl
  , .blank
  , .method getSupportedFormatsDecl
  , .blank
  , .method setDelegateDecl
  , .blank
  , .method setFormatDecl
  , .blank
  , .method startDecl
  , .blank
  , .method stopDecl
  , .blank
  , .ifdefCpp
  , .externCClose
  , .endifDir
  , .endifDir ]


/-- The verbatim text of the header file, line by line (93 lines; braces and
double quotes written with hex escapes). -/
def headerLines : List String :=
  ["/* DO NOT EDIT THIS FILE - it is machine generated */",
  "#include <jni.h>",
  "/* Header for class org_jitsi_impl_neomedia_jmfext_media_protocol_directshow_DSCaptureDevice */",
  "",
  "#ifndef _Included_org_jitsi_impl_neomedia_jmfext_media_protocol_directshow_DSCaptureDevice",
  "#define _Included_org_jitsi_impl_neomedia_jmfext_media_protocol_directshow_DSCaptureDevice",
  "#ifdef __cplusplus",
  "extern \x22C\x22 \x7b",
  "#endif",
  "/*",
  " * Class:     org_jitsi_impl_neomedia_jmfext_media_protocol_directshow_DSCaptureDevice",
  " * Method:    getBytes",
  " * Signature: (JJI)I",
  " */",
  "JNIEXPORT jint JNICALL Java_org_jitsi_impl_neomedia_jmfext_media_protocol_directshow_DSCaptureDevice_getBytes",
  "  (JNIEnv *, jclass, jlong, jlong, jint);",
  "",
  "/*",
  " * Class:     org_jitsi_impl_neomedia_jmfext_media_protocol_directshow_DSCaptureDevice",
  " * Method:    connect",
  " * Signature: (J)V",
  " */",
  "JNIEXPORT void JNICALL Java_org_jitsi_impl_neomedia_jmfext_media_protocol_directshow_DSCaptureDevice_connect",
  "  (JNIEnv *, jobject, jlong);",
  "",
  "/*",
  " * Class:     org_jitsi_impl_neomedia_jmfext_media_protocol_directshow_DSCaptureDevice",
  " * Method:    disconnect",
  " * Signature: (J)V",
  " */",
  "JNIEXPORT void JNICALL Java_org_jitsi_impl_neomedia_jmfext_media_protocol_directshow_DSCaptureDevice_disconnect",
  "  (JNIEnv *, jobject, jlong);",
  "",
  "/*",
  " * Class:     org_jitsi_impl_neomedia_jmfext_media_protocol_directshow_DSCaptureDevice",
  " * Method:    getFormat",
  " * Signature: (J)Lorg/jitsi/impl/neomedia/jmfext/media/protocol/directshow/DSFormat;",
  " */",
  "JNIEXPORT jobject JNICALL Java_org_jitsi_impl_neomedia_jmfext_media_protocol_directshow_DSCaptureDevice_getFormat",
  "  (JNIEnv *, jobject, jlong);",
  "",
  "/*",
  " * Class:     org_jitsi_impl_neomedia_jmfext_media_protocol_directshow_DSCaptureDevice",
  " * Method:    getName",
  " * Signature: (J)Ljava/lang/String;",
  " */",
  "JNIEXPORT jstring JNICALL Java_org_jitsi_impl_neomedia_jmfext_media_protocol_directshow_DSCaptureDevice_getName",
  "  (JNIEnv *, jobject, jlong);",
  "",
  "/*",
  " * Class:     org_jitsi_impl_neomedia_jmfext_media_protocol_directshow_DSCaptureDevice",
  " * Method:    getSupportedFormats",
  " * Signature: (J)[Lorg/jitsi/impl/neomedia/jmfext/media/protocol/directshow/DSFormat;",
  " */",
  "JNIEXPORT jobjectArray JNICALL Java_org_jitsi_impl_neomedia_jmfext_media_protocol_directshow_DSCaptureDevice_getSupportedFormats",
  "  (JNIEnv *, jobject, jlong);",
  "",
  "/*",
  " * Class:     org_jitsi_impl_neomedia_jmfext_media_protocol_directshow_DSCaptureDevice",
  " * Method:    setDelegate",
  " * Signature: (JLorg/jitsi/impl/neomedia/jmfext/media/protocol/directshow/DSCaptureDevice/GrabberDelegate;)V",
  " */",
  "JNIEXPORT void JNICALL Java_org_jitsi_impl_neomedia_jmfext_media_protocol_directshow_DSCaptureDevice_setDelegate",
  "  (JNIEnv *, jobject, jlong, jobject);",
  "",
  "/*",
  " * Class:     org_jitsi_impl_neomedia_jmfext_media_protocol_directshow_DSCaptureDevice",
  " * Method:    setFormat",
  " * Signature: (JLorg/jitsi/impl/neomedia/jmfext/media/protocol/directshow/DSFormat;)I",
  " */",
  "JNIEXPORT jint JNICALL Java_org_jitsi_impl_neomedia_jmfext_media_protocol_directshow_DSCaptureDevice_setFormat",
  "  (JNIEnv *, jobject, jlong, jobject);",
  "",
  "/*",
  " * Class:     org_jitsi_impl_neomedia_jmfext_media_protocol_directshow_DSCaptureDevice",
  " * Method:    start",
  " * Signature: (J)I",
  " */",
  "JNIEXPORT jint JNICALL Java_org_jitsi_impl_neomedia_jmfext_media_protocol_directshow_DSCaptureDevice_start",
  "  (JNIEnv *, jobject, jlong);",
  "",
  "/*",
  " * Class:     org_jitsi_impl_neomedia_jmfext_media_protocol_directshow_DSCaptureDevice",
  " * Method:    stop",
  " * Signature: (J)I",
  " */",
  "JNIEXPORT jint JNICALL Java_org_jitsi_impl_neomedia_jmfext_media_protocol_directshow_DSCaptureDevice_stop",
  "  (JNIEnv *, jobject, jlong);",
  "",
  "#ifdef __cplusplus",
  "\x7d",
  "#endif",
  "#endif" ]

/-- Render one structured item back to the source lines it was read from. -/
def renderItem : HeaderItem → List String
  | .lineComment t => ["/* " ++ t ++ " */"]
  | .includeJni => ["#include <jni.h>"]
  | .blank => [""]
  | .ifndefDir n => ["#ifndef " ++ n]
  | .defineDir n => ["#define " ++ n]
  | .ifdefCpp => ["#ifdef __cplusplus"]
  | .endifDir => ["#endif"]
  | .externCOpen => ["extern \x22C\x22 \x7b"]
  | .externCClose => ["\x7d"]
  | .method d =>
      [ "/*"
      , " * Class:     " ++ d.className
      , " * Method:    " ++ d.methodName
      , " * Signature: " ++ d.signature
      , " */"
      , "JNIEXPORT " ++ ctypeStr d.retType ++ " JNICALL " ++ d.cName
      , "  (" ++ String.intercalate ", " (d.allParams.map ctypeStr) ++ ");" ]
  | .functionDef d body =>
      [ "JNIEXPORT " ++ ctypeStr d.retType ++ " JNICALL " ++ d.cName
      , "  (" ++ String.intercalate ", " (d.allParams.map ctypeStr) ++ ")"
      , "\x7b" ] ++ body ++ ["\x7d"]

/-- Render the whole item list. -/
def renderHeader (items : List HeaderItem) : List String :=
  (items.map renderItem).flatten

/-- The function declarations an item contributes (prototype or definition). -/
def itemDecls : HeaderItem → Option NativeDecl
  | .method d => some d
  | .functionDef d _ => some d
  | _ => none

/-- All function declarations of an item list, in order. -/
def methodsOf (items : List HeaderItem) : List NativeDecl :=
  items.filterMap itemDecls

/-- The functions the header declares, in order. -/
def declaredMethods : List NativeDecl :=
  methodsOf headerItems

/-- The explicit arguments of a native method: everything after the implicit
`JNIEnv *` and the receiver (`jobject`/`jclass`). -/
def explicitArgs (d : NativeDecl) : List CType :=
  d.allParams.drop 2

/-- Replace every `.` by `_` (the JNI name-mangling step for a class name
containing neither underscores nor non-ASCII characters). -/
def dotsToUnderscores (s : String) : String :=
  String.mk (s.data.map fun c => if c = '.' then '_' else c)

/-- The JNI short name of a native method: `Java_`, then the mangled
fully-qualified class name, then `_`, then the method name. -/
def jniShortName (cls method : String) : String :=
  "Java_" ++ dotsToUnderscores cls ++ "_" ++ method

/-- Split a character list at the first `;` (the terminator of a JNI class
descriptor), returning the part before it and the rest after it. -/
def splitAtSemi : List Char → Option (List Char × List Char)
  | [] => none
  | ';' :: r => some ([], r)
  | c :: r => (splitAtSemi r).map fun p => (c :: p.1, p.2)

/-- Parse one JNI type descriptor from the front of a character list and map
it to the C type `javah` uses for it: `J` is `jlong`, `I` is `jint`, `V` is
`void`, `Ljava/lang/String;` is `jstring`, any other `L...;` is `jobject`,
and an array of a reference type is `jobjectArray`.  Descriptor letters that
do not occur in this header are not mapped. -/
def parseOneDesc : List Char → Option (CType × List Char)
  | 'J' :: r => some (.jlong, r)
  | 'I' :: r => some (.jint, r)
  | 'V' :: r => some (.void, r)
  | 'L' :: r =>
      (splitAtSemi r).map fun p =>
        (if p.1 = "java/lang/String".data then CType.jstring else CType.jobject, p.2)
  | '[' :: r =>
      match parseOneDesc r with
      | some (.jobject, r2) => some (.jobjectArray, r2)
      | some (.jstring, r2) => some (.jobjectArray, r2)
      | _ => none
  | _ => none

/-- Parse descriptors up to the closing `)` of a method descriptor's
parameter list.  The fuel argument bounds the recursion; callers pass the
input length, which suffices since each step consumes at least one character. -/
def parseParamList : Nat → List Char → Option (List CType × List Char)
  | 0, _ => none
  | _ + 1, ')' :: r => some ([], r)
  | fuel + 1, cs =>
      match parseOneDesc cs with
      | some (t, r) => (parseParamList fuel r).map fun p => (t :: p.1, p.2)
      | none => none

/-- Parse a full JNI method descriptor `(...)R` into the C parameter types
and the C return type. -/
def parseDesc (s : String) : Option (List CType × CType) :=
  match s.data with
  | '(' :: r =>
      match parseParamList r.length r with
      | some (ps, rest) =>
          match parseOneDesc rest with
          | some (ret, []) => some (ps, ret)
          | _ => none
      | none => none
  | _ => none

/-- A mini C preprocessor over header items, sufficient for this file:
`cpp` says whether `__cplusplus` is defined, `defs` is the set of defined
macros, and the stack holds the condition value of each open `#ifndef` or
`#ifdef __cplusplus` region.  Directives emit nothing; any other item is
emitted when every enclosing condition is true.  Returns the emitted items
and the final macro set. -/
def ppRun (cpp : Bool) : List HeaderItem → List String → List Bool → List HeaderItem × List String
  | [], defs, _ => ([], defs)
  | .ifndefDir n :: rest, defs, stack =>
      ppRun cpp rest defs ((!(defs.contains n)) :: stack)
  | .ifdefCpp :: rest, defs, stack =>
      ppRun cpp rest defs (cpp :: stack)
  | .endifDir :: rest, defs, stack =>
      ppRun cpp rest defs stack.tail
  | .defineDir n :: rest, defs, stack =>
      ppRun cpp rest (if stack.all (fun b => b) then n :: defs else defs) stack
  | i :: rest, defs, stack =>
      let p := ppRun cpp rest defs stack
      (if stack.all (fun b => b) then i :: p.1 else p.1, p.2)

/-- Include the header file `n` times into a translation unit that starts
with macro set `defs`, concatenating the emitted items. -/
def includeTimes (cpp : Bool) : Nat → List String → List HeaderItem × List String
  | 0, defs => ([], defs)
  | n + 1, defs =>
      let p := ppRun cpp headerItems defs []
      let q := includeTimes cpp n p.2
      (p.1 ++ q.1, q.2)

/-- Walk preprocessed items tracking the extern-C brace depth; pair each
declared function with whether it sits inside an `extern \x22C\x22` block. -/
def cLinkageScan : List HeaderItem → Nat → List (NativeDecl × Bool)
  | [], _ => []
  | .externCOpen :: rest, depth => cLinkageScan rest (depth + 1)
  | .externCClose :: rest, depth => cLinkageScan rest (depth - 1)
  | i :: rest, depth =>
      match itemDecls i with
      | some d => (d, decide (0 < depth)) :: cLinkageScan rest depth
      | none => cLinkageScan rest depth

/-- Whether `n` occurs at the head of `l`. -/
def startsWithChars : List Char → List Char → Bool
  | [], _ => true
  | _ :: _, [] => false
  | a :: as, b :: bs => a = b && startsWithChars as bs

/-- Whether `n` occurs anywhere inside `l`. -/
def hasSubChars (n : List Char) : List Char → Bool
  | [] => startsWithChars n []
  | c :: cs => startsWithChars n (c :: cs) || hasSubChars n cs

/-- The header's lines, lower-cased, as character lists. -/
def loweredHeaderChars : List (List Char) :=
  headerLines.map fun s => s.data.map Char.toLower

/-- Lower-case fragments that any synchronization primitive, thread type,
atomic, or threading-related declaration or annotation would contain. -/
def concurrencyTokens : List (List Char) :=
  [ "thread".data, "mutex".data, "atomic".data, "lock".data, "semaphore".data
  , "critical".data, "volatile".data, "synchron".data, "concurren".data
  , "interlocked".data, "condition_variable".data, "barrier".data
  , "futex".data, "waitfor".data, "createevent".data ]

/-- The items of the header that sit before the include guard: the
machine-generated warning comment, `#include <jni.h>`, the
`Header for class ...` comment, and a blank line. -/
def preGuardItems : List HeaderItem :=
  [ .lineComment "DO NOT EDIT THIS FILE - it is machine generated"
  , .includeJni
  , .lineComment ("Header for class " ++ mangledClassName)
  , .blank ]

/-- Whether an item is a preprocessor directive. -/
def isDirective : HeaderItem → Bool
  | .includeJni | .ifndefDir _ | .defineDir _ | .ifdefCpp | .endifDir => true
  | _ => false

/-- Whether an item is a stand-alone comment. -/
def isLoneComment : HeaderItem → Bool
  | .lineComment _ => true
  | _ => false

/-- Whether an item is a brace of the `extern` linkage wrapper. -/
def isExternCBrace : HeaderItem → Bool
  | .externCOpen | .externCClose => true
  | _ => false

/-- Whether an item is a function prototype with its comment block. -/
def isCommentedPrototype : HeaderItem → Bool
  | .method _ => true
  | _ => false

/-- Whether an item is a blank line. -/
def isBlankItem : HeaderItem → Bool
  | .blank => true
  | _ => false

/-- Whether an item is a function definition, i.e. a function given a body. -/
def isFunctionDefinition : HeaderItem → Bool
  | .functionDef _ _ => true
  | _ => false

/-- The property claimed of every boundary value: each explicit argument is
`jlong`, and the return type is `void` or `jlong`. -/
def allExplicitValuesJlong (d : NativeDecl) : Bool :=
  (explicitArgs d).all (fun t => t = CType.jlong) &&
    (d.retType = CType.void || d.retType = CType.jlong)

/-- The return-type table of the header: `connect`, `disconnect` and
`setDelegate` return `void`; `getBytes`, `setFormat`, `start` and `stop`
return `jint`; `getFormat`, `getName` and `getSupportedFormats` return
`jobject`, `jstring` and `jobjectArray` respectively. -/
def returnTypeTableOk (d : NativeDecl) : Bool :=
  if ["connect", "disconnect", "setDelegate"].contains d.methodName then
    d.retType = CType.void
  else if ["getBytes", "setFormat", "start", "stop"].contains d.methodName then
    d.retType = CType.jint
  else if d.methodName = "getFormat" then d.retType = CType.jobject
  else if d.methodName = "getName" then d.retType = CType.jstring
  else if d.methodName = "getSupportedFormats" then d.retType = CType.jobjectArray
  else false

/-- The structured transcription is exact: rendering `headerItems` reproduces
the 93 verbatim source lines of the header. -/
theorem headerItems_render_to_source : renderHeader headerItems = headerLines := by
  decide

/-- Once the guard macro is defined, a further pass of the preprocessor over
the header emits only the four pre-guard items and defines nothing new. -/
theorem ppRun_guarded (cpp : Bool) (defs : List String)
    (h : defs.contains guardName = true) :
    ppRun cpp headerItems defs [] = (preGuardItems, defs) := by
  have h' : guardName ∈ defs := by simpa using h
  simp [headerItems, preGuardItems, ppRun, h']

/-- With the guard already defined, any number of further inclusions
contributes no declaration and leaves the macro set unchanged. -/
theorem includeTimes_guarded (cpp : Bool) (defs : List String)
    (h : defs.contains guardName = true) :
    ∀ n, methodsOf (includeTimes cpp n defs).1 = [] ∧ (includeTimes cpp n defs).2 = defs := by
  intro n
  induction n with
  | zero => exact ⟨rfl, rfl⟩
  | succ m ih =>
      simp only [includeTimes, ppRun_guarded cpp defs h]
      refine ⟨?_, ih.2⟩
      rw [methodsOf, List.filterMap_append]
      have h1 : methodsOf preGuardItems = [] := by decide
      rw [methodsOf] at h1 ih
      rw [h1, ih.1, List.nil_append]

/-- A first inclusion into a translation unit with no macros defined leaves
exactly the guard macro defined. -/
theorem ppRun_fresh_defs (cpp : Bool) : (ppRun cpp headerItems [] []).2 = [guardName] := by
  cases cpp <;> decide

/-- Claim C1: the header declares native entry points for exactly ten
DSCaptureDevice methods, in order getBytes, connect, disconnect, getFormat,
getName, getSupportedFormats, setDelegate, setFormat, start and stop, and no
others. -/
theorem declares_exactly_ten_methods :
    declaredMethods.map (fun d => d.methodName) =
      [ "getBytes", "connect", "disconnect", "getFormat", "getName"
      , "getSupportedFormats", "setDelegate", "setFormat", "start", "stop" ] := by
  decide

/-- Claim C2, counterexample: it is not the case that every explicit argument
and every non-void return type is jlong — the declared method getBytes takes a
jint as its third explicit argument and returns jint. -/
theorem not_all_boundary_values_jlong :
    declaredMethods.contains getBytesDecl = true ∧
    allExplicitValuesJlong getBytesDecl = false ∧
    explicitArgs getBytesDecl = [CType.jlong, CType.jlong, CType.jint] ∧
    getBytesDecl.retType = CType.jint := by
  decide

/-- Claim C2, amended: beyond the implicit JNIEnv pointer and receiver, every
declared function's first explicit argument is an opaque jlong handle; the
remaining explicit arguments are jlong, jint or jobject, and every return type
is void, jint, jobject, jstring or jobjectArray — no other data structure
crosses the boundary. -/
theorem boundary_types_jlong_jint_and_references :
    declaredMethods.all
      (fun d =>
        (explicitArgs d).head? = some CType.jlong &&
        (explicitArgs d).tail.all
          (fun t => t = CType.jlong || t = CType.jint || t = CType.jobject) &&
        [ CType.void, CType.jint, CType.jobject, CType.jstring
        , CType.jobjectArray ].contains d.retType) = true := by
  decide

/-- Claim C3: for every declared function, parsing the JNI type descriptor
stated in the comment block immediately above it yields exactly the explicit C
parameter types and the C return type of its extern declaration. -/
theorem descriptors_agree_with_prototypes :
    declaredMethods.all
      (fun d => parseDesc d.signature = some (explicitArgs d, d.retType)) = true := by
  decide

/-- Claim C4: every declared function's name is exactly Java_ followed by the
fully-qualified class name with dots replaced by underscores, an underscore,
and the method name from its comment block, and its first parameter is a
JNIEnv pointer. -/
theorem names_follow_jni_mangling :
    declaredMethods.all
      (fun d =>
        d.cName = jniShortName javaFQClassName d.methodName &&
        d.allParams.head? = some CType.jniEnvPtr) = true := by
  decide

/-- Claim C5: the file contains declarations only — rendering the structured
items reproduces the source text exactly, every top-level element is a
preprocessor directive, a comment, an extern-C linkage brace, a function
prototype with its comment block, or a blank line, and no element is a
function definition with a body. -/
theorem declarations_only_no_logic :
    renderHeader headerItems = headerLines ∧
    headerItems.all
      (fun i =>
        isDirective i || isLoneComment i || isExternCBrace i ||
        isCommentedPrototype i || isBlankItem i) = true ∧
    headerItems.any isFunctionDefinition = false := by
  exact ⟨by decide, by decide, by decide⟩

/-- Claim C6: preprocessing the header with __cplusplus defined places every
one of the ten declared functions inside an extern-C block, so each has C
linkage. -/
theorem all_decls_have_c_linkage_under_cpp :
    (cLinkageScan (ppRun true headerItems [] []).1 0).map Prod.fst = declaredMethods ∧
    (cLinkageScan (ppRun true headerItems [] []).1 0).all (fun p => p.2) = true := by
  decide

/-- Claim C7: no synchronization primitive, thread type, atomic, or
threading-related token occurs in any line of the header. -/
theorem no_concurrency_token_in_header :
    loweredHeaderChars.all
      (fun l => concurrencyTokens.all (fun t => !(hasSubChars t l))) = true := by
  decide

/-- Claim C8, counterexample: the entire content is not wrapped in the include
guard — with the guard macro already defined, preprocessing the header still
emits the four items before the guard (two comments, the jni.h include
directive and a blank line), a nonempty output. -/
theorem content_before_include_guard :
    (ppRun true headerItems [guardName] []).1 = preGuardItems ∧
    preGuardItems ≠ [] := by
  decide

/-- Claim C8, amended: every declaration of the header is wrapped in the
include guard (only two comments, the jni.h include and a blank line precede
it), so for every translation unit, including the file any number of times
greater than zero produces exactly the same declarations as including it once,
with no redefinition of the guard macro. -/
theorem inclusion_idempotent_for_declarations (cpp : Bool) (n : Nat) (h : 1 ≤ n) :
    methodsOf (includeTimes cpp n []).1 = methodsOf (includeTimes cpp 1 []).1 ∧
    (includeTimes cpp n []).2 = (includeTimes cpp 1 []).2 := by
  obtain ⟨m, rfl⟩ : ∃ m, n = m + 1 := ⟨n - 1, by omega⟩
  have hg : ([guardName] : List String).contains guardName = true := by decide
  have hrest := includeTimes_guarded cpp [guardName] hg m
  simp only [includeTimes, ppRun_fresh_defs cpp, methodsOf, List.filterMap_append]
  rw [methodsOf] at hrest
  exact ⟨by rw [hrest.1]; simp, by rw [hrest.2]⟩

/-- Witness for the amended claim C8 at three inclusions with __cplusplus
defined. -/
theorem inclusion_idempotent_witness :
    1 ≤ 3 ∧
    (methodsOf (includeTimes true 3 []).1 = methodsOf (includeTimes true 1 []).1 ∧
     (includeTimes true 3 []).2 = (includeTimes true 1 []).2) :=
  ⟨by decide, inclusion_idempotent_for_declarations true 3 (by decide)⟩

/-- Claim C9: getBytes is the only declared function whose second parameter is
jclass (a static native method); the other nine take a jobject receiver. -/
theorem only_getBytes_is_static :
    declaredMethods.all
      (fun d =>
        d.allParams[1]? =
          some (if d.methodName = "getBytes" then CType.jclass else CType.jobject)) = true := by
  decide

/-- Claim C10: the return types follow the table — connect, disconnect and
setDelegate return void; getBytes, setFormat, start and stop return jint;
getFormat, getName and getSupportedFormats return jobject, jstring and
jobjectArray respectively. -/
theorem return_types_partition :
    declaredMethods.all returnTypeTableOk = true := by
  decide

end DSCaptureDeviceHeader
